import Mathlib

/-
Verification development for the jira-mcp repository.

Shallow embedding of:
  src/tools/jira_executor.py   (CommandResult, execute_jira_command)
  src/models/jira_tickets.py   (COMMON_STATUS_MAP, normalize_status, models)
  src/tools/tool_utils.py      (_build_jql_from_params, _convert_adf_to_text,
                                list_tickets, get_ticket, create_ticket,
                                move_ticket, add_comment, assign_to_me,
                                open_ticket_in_browser,
                                update_ticket_description, list_sprints,
                                add_to_sprint, remove_from_sprint, edit_ticket)

Python dynamic values (json.loads output, ADF trees) are modelled by the
JsonVal inductive; Python dict access `d.get(k)` / `d.get(k, default)` by
JsonVal.getKey / Option.getD; Python truthiness by JsonVal.truthy and the
truthy* helpers.  The external jira-cli subprocess is modelled by an
environment (ExecEnv) carrying: whether the binary exists at the configured
path, the configured path, the response function for a given argument
list/stdin, and a JSON-decoding oracle standing for json.loads.  Raised
Python exceptions are modelled by Except.error carrying a JiraError.
-/

namespace JiraMcp

/-- JSON-like values: the shape of Python data produced by `json.loads`,
including ADF (Atlassian Document Format) document trees, which the source
manipulates as nested dicts/lists/strings. -/
inductive JsonVal where
  | null : JsonVal
  | bool (b : Bool) : JsonVal
  | num (n : Int) : JsonVal
  | str (s : String) : JsonVal
  | arr (items : List JsonVal) : JsonVal
  | obj (fields : List (String × JsonVal)) : JsonVal

/-- First-match association lookup (Python dicts have unique keys, so first
match is the only match). -/
def assocGet : List (String × JsonVal) → String → Option JsonVal
  | [], _ => none
  | (k, v) :: rest, key => if key = k then some v else assocGet rest key

/-- Python `d.get(k)`: `none` when `d` has no such key.  Non-dict receivers
never occur in the source (well-formed input); they yield `none`. -/
def JsonVal.getKey (j : JsonVal) (k : String) : Option JsonVal :=
  match j with
  | .obj fields => assocGet fields k
  | _ => none

/-- Python truthiness of a JSON value. -/
def JsonVal.truthy : JsonVal → Bool
  | .null => false
  | .bool b => b
  | .num n => if n = 0 then false else true
  | .str s => if s = "" then false else true
  | .arr items => if items.isEmpty then false else true
  | .obj fields => if fields.isEmpty then false else true

/-- Python truthiness of `d.get(k)` (absent key is `None`, which is falsy). -/
def truthyOpt : Option JsonVal → Bool
  | some v => v.truthy
  | none => false

/-- `isinstance(v, dict)`. -/
def JsonVal.isObjB : JsonVal → Bool
  | .obj _ => true
  | _ => false

/-- A value expected to be a JSON array; the source only iterates values that
are lists on well-formed input. -/
def JsonVal.asArr : JsonVal → List JsonVal
  | .arr items => items
  | _ => []

/-- A string-expected optional value with a default (Python
`d.get(k, default)` where the value, when present, is a string on
well-formed input). -/
def strD : Option JsonVal → String → String
  | some (.str s), _ => s
  | _, d => d

/-- An int-expected optional value with a default. -/
def intD : Option JsonVal → Int → Int
  | some (.num n), _ => n
  | _, d => d

/-- Python `j.get(k, default)` for a string-valued key. -/
def getStr (j : JsonVal) (k : String) (d : String) : String :=
  strD (j.getKey k) d

/-- Python `block.get("attrs", {}).get(k, d)` for an int-valued attribute. -/
def attrInt (block : JsonVal) (k : String) (d : Int) : Int :=
  intD (((block.getKey "attrs").getD (.obj [])).getKey k) d

/-- Python `block.get("attrs", {}).get(k, d)` for a string-valued attribute. -/
def attrStr (block : JsonVal) (k : String) (d : String) : String :=
  strD (((block.getKey "attrs").getD (.obj [])).getKey k) d

/-- Python `str()` on a JSON scalar.  The CPython repr of containers is not
reproduced (the source only reaches this call on non-dict comment bodies,
and no claim exercises a container here). -/
def JsonVal.pyStr : JsonVal → String
  | .str s => s
  | .num n => toString n
  | .bool true => "True"
  | .bool false => "False"
  | .null => "None"
  | .arr _ => ""
  | .obj _ => ""

/-- Python `pat in s` substring test, on the character list of `s`. -/
def listIsInfix : List Char → List Char → Bool
  | pat, [] => pat.isEmpty
  | pat, c :: rest => pat.isPrefixOf (c :: rest) || listIsInfix pat rest

/-- Python `pat in s` for strings. -/
def pyContains (s pat : String) : Bool :=
  listIsInfix pat.data s.data

/-- Python `s.strip()`: drop leading and trailing whitespace.  (Python
strips the full Unicode whitespace class; `Char.isWhitespace` covers the
ASCII subset, which is all the source's data contains.) -/
def pyStrip (s : String) : String :=
  String.mk
    (((s.data.dropWhile Char.isWhitespace).reverse.dropWhile
      Char.isWhitespace).reverse)

/-- Python `s.lower()`, modelled per character.  `Char.toLower` covers the
ASCII range; CPython's full Unicode case table (where e.g. the Kelvin sign
lower-cases onto ASCII k) is not reproduced, so agreement is up to inputs
within the ASCII-relevant range. -/
def pyLower (s : String) : String :=
  String.mk (s.data.map Char.toLower)

/-- Splitting a character list at every occurrence of `sep`, keeping empty
segments: Python `s.split(sep)` for a one-character separator. -/
def splitOnChar (sep : Char) : List Char → List (List Char)
  | [] => [[]]
  | c :: rest =>
      if c = sep then [] :: splitOnChar sep rest
      else
        match splitOnChar sep rest with
        | h :: t => (c :: h) :: t
        | [] => [[c]]

/-- Python `s.split(sep)` for a one-character separator (the source only
splits on "\t" and "\n"). -/
def pySplit (s : String) (sep : Char) : List String :=
  (splitOnChar sep s.data).map String.mk

/-- Decimal digit-string parsing: `none` unless the characters are one or
more digits. -/
def parseNatChars : List Char → Option Nat :=
  fun cs => if cs.isEmpty then none else go cs 0
where
  go : List Char → Nat → Option Nat
    | [], acc => some acc
    | c :: rest, acc =>
        if c.isDigit then go rest (acc * 10 + (c.toNat - 48)) else none

/- ------------------------------------------------------------------ -/
/- src/models/jira_tickets.py                                          -/
/- ------------------------------------------------------------------ -/

/-- COMMON_STATUS_MAP from src/models/jira_tickets.py, lines 17-32. -/
def COMMON_STATUS_MAP : List (String × String) :=
  [("open", "Open"),
   ("in progress", "In Progress"),
   ("in review", "In Review"),
   ("done", "Done"),
   ("closed", "Closed"),
   ("canceled", "Canceled"),
   ("todo", "To Do"),
   ("to do", "To Do"),
   ("backlog", "Backlog"),
   ("blocked", "Blocked"),
   ("ready for review", "Ready for Review"),
   ("ready for qa", "Ready for QA"),
   ("in qa", "In QA"),
   ("deployed", "Deployed")]

/-- First-match lookup in a string table (Python `dict.get(key, default)`
behaviour, default handled at the call site). -/
def lookupStr : List (String × String) → String → Option String
  | [], _ => none
  | (k, v) :: rest, key => if key = k then some v else lookupStr rest key

/-- normalize_status from src/models/jira_tickets.py, lines 35-47:
`COMMON_STATUS_MAP.get(status.lower(), status)`. -/
def normalize_status (status : String) : String :=
  match lookupStr COMMON_STATUS_MAP (pyLower status) with
  | some v => v
  | none => status

/-- JiraComment from src/models/jira_tickets.py. -/
structure JiraComment where
  author : String
  created : String
  body : String
deriving DecidableEq

/-- JiraTicket from src/models/jira_tickets.py. -/
structure JiraTicket where
  key : String
  summary : String
  status : String
  priority : String
  type : String
  assignee : Option String
  reporter : Option String
  created : Option String
  updated : Option String
  description : Option String
deriving DecidableEq

/-- JiraTicketDetail from src/models/jira_tickets.py (JiraTicket plus
comments; flattened here). -/
structure JiraTicketDetail where
  key : String
  summary : String
  status : String
  priority : String
  type : String
  assignee : Option String
  reporter : Option String
  created : Option String
  updated : Option String
  description : String
  comments : List JiraComment
deriving DecidableEq

/- ------------------------------------------------------------------ -/
/- _convert_adf_to_text, src/tools/tool_utils.py lines 177-277         -/
/- ------------------------------------------------------------------ -/

/-- One pass of the mark loop in process_inline_content (tool_utils.py
lines 193-203): wrap `text` according to one mark's type. -/
def applyMark (text : String) (mark : JsonVal) : String :=
  match mark.getKey "type" with
  | some (.str "strong") => "**" ++ text ++ "**"
  | some (.str "em") => "*" ++ text ++ "*"
  | some (.str "code") => "`" ++ text ++ "`"
  | some (.str "strike") => "~~" ++ text ++ "~~"
  | _ => text

/-- process_inline_content from tool_utils.py lines 188-207: text nodes are
wrapped per their marks in list order, hardBreak becomes a newline, every
other node contributes nothing; results are concatenated. -/
def process_inline_content (nodes : List JsonVal) : String :=
  String.join (nodes.map fun node =>
    match node.getKey "type" with
    | some (.str "text") =>
        (((node.getKey "marks").getD (.arr [])).asArr).foldl applyMark
          (strD (node.getKey "text") "")
    | some (.str "hardBreak") => "\n"
    | _ => "")

/-- Python `block.get("content", [])` (a list on well-formed input). -/
def blockContent (block : JsonVal) : List JsonVal :=
  ((block.getKey "content").getD (.arr [])).asArr

/-- The per-list-item inner loop shared by bulletList and orderedList
(tool_utils.py lines 232-236 and 245-248): the inline renderings of the
item's paragraphs that have truthy content. -/
def listItemParts (item : JsonVal) : List String :=
  (blockContent item).filterMap fun p =>
    match p.getKey "type" with
    | some (.str "paragraph") =>
        if truthyOpt (p.getKey "content") then
          some (process_inline_content (blockContent p))
        else none
    | _ => none

/-- One iteration of the block loop in _convert_adf_to_text (tool_utils.py
lines 210-275).  The Python loop appends at most one fragment to `parts`
per block; `none` means no fragment was appended. -/
def renderBlock (block : JsonVal) : Option String :=
  match block.getKey "type" with
  | some (.str "paragraph") =>
      let block_content := blockContent block
      if block_content.isEmpty then none
      else
        let text := process_inline_content block_content
        if text = "" then none else some text
  | some (.str "heading") =>
      let level := attrInt block "level" 1
      let block_content := blockContent block
      if block_content.isEmpty then none
      else
        let text := process_inline_content block_content
        if text = "" then none
        else some (String.mk (List.replicate level.toNat '#') ++ " " ++ text)
  | some (.str "bulletList") =>
      let list_items := (blockContent block).filterMap fun item =>
        let item_parts := listItemParts item
        if item_parts.isEmpty then none
        else some ("- " ++ String.intercalate " " item_parts)
      if list_items.isEmpty then none
      else some (String.intercalate "\n" list_items)
  | some (.str "orderedList") =>
      let start_num := attrInt block "start" 1
      let list_items := ((blockContent block).enum).filterMap fun pair =>
        let item_parts := listItemParts pair.2
        if item_parts.isEmpty then none
        else some (toString (start_num + (pair.1 : Int)) ++ ". " ++
          String.intercalate " " item_parts)
      if list_items.isEmpty then none
      else some (String.intercalate "\n" list_items)
  | some (.str "codeBlock") =>
      let lang := attrStr block "language" ""
      let code := String.join ((blockContent block).map fun text_node =>
        strD (text_node.getKey "text") "")
      some ("```" ++ lang ++ "\n" ++ code ++ "\n```")
  | some (.str "rule") => some "---"
  | some (.str "blockquote") =>
      let quoted_lines := (blockContent block).filterMap fun p =>
        match p.getKey "type" with
        | some (.str "paragraph") =>
            if truthyOpt (p.getKey "content") then
              some ("> " ++ process_inline_content (blockContent p))
            else none
        | _ => none
      if quoted_lines.isEmpty then none
      else some (String.intercalate "\n" quoted_lines)
  | _ => none

/-- _convert_adf_to_text from tool_utils.py lines 177-277: render every
block of `adf.get("content", [])`, keep the fragments actually produced,
and join them with a blank line. -/
def convert_adf_to_text (adf : JsonVal) : String :=
  String.intercalate "\n\n"
    ((((adf.getKey "content").getD (.arr [])).asArr).filterMap renderBlock)

/- ------------------------------------------------------------------ -/
/- _build_jql_from_params, src/tools/tool_utils.py lines 34-83         -/
/- ------------------------------------------------------------------ -/

/-- Python truthiness of an `str | None` parameter. -/
def truthyS : Option String → Bool
  | some s => if s = "" then false else true
  | none => false

/-- _build_jql_from_params from tool_utils.py lines 34-83.  The Python
`bool | None` flags are modelled as Bool (the source only tests their
truthiness, under which None and False coincide). -/
def build_jql_from_params (jql : Option String)
    (assigned_to_me unassigned : Bool) (status project : Option String)
    (created_recently updated_recently : Bool) : Option String :=
  if truthyS jql then jql
  else
    let conditions : List String :=
      (if assigned_to_me then ["assignee = currentUser()"]
       else if unassigned then ["assignee is EMPTY"] else [])
      ++ (match status with
          | some s =>
              if s = "" then []
              else ["status = \"" ++ normalize_status s ++ "\""]
          | none => [])
      ++ (match project with
          | some p => if p = "" then [] else ["project = " ++ p]
          | none => [])
      ++ (if created_recently then ["created >= -7d"] else [])
      ++ (if updated_recently then ["updated >= -7d"] else [])
    if conditions.isEmpty then none
    else some (String.intercalate " AND " conditions)

/- ------------------------------------------------------------------ -/
/- src/models/jira_actions.py                                          -/
/- ------------------------------------------------------------------ -/

structure CreateTicketResult where
  success : Bool
  ticket_key : Option String
  ticket_url : Option String
  error : Option String
deriving DecidableEq

structure MoveTicketResult where
  success : Bool
  ticket_key : String
  previous_status : String
  new_status : String
  message : String
deriving DecidableEq

structure AddCommentResult where
  success : Bool
  ticket_key : String
  message : String
deriving DecidableEq

structure AssignToMeResult where
  success : Bool
  ticket_key : String
  assignee : String
  message : String
deriving DecidableEq

structure UpdateDescriptionResult where
  success : Bool
  ticket_key : String
  message : String
deriving DecidableEq

structure Sprint where
  id : Int
  name : String
  state : String
  start_date : Option String
  end_date : Option String
  goal : Option String
deriving DecidableEq

structure ListSprintsResult where
  sprints : List Sprint
deriving DecidableEq

structure AddToSprintResult where
  success : Bool
  ticket_key : String
  sprint_id : Int
  message : String
deriving DecidableEq

structure RemoveFromSprintResult where
  success : Bool
  ticket_key : String
  message : String
deriving DecidableEq

structure EditTicketResult where
  success : Bool
  ticket_key : String
  message : String
  updated_fields : List String
deriving DecidableEq

/- ------------------------------------------------------------------ -/
/- src/tools/jira_executor.py                                          -/
/- ------------------------------------------------------------------ -/

/-- CommandResult from jira_executor.py lines 14-19. -/
structure CommandResult where
  stdout : String
  stderr : String
  exit_code : Int
deriving DecidableEq

/-- Raised Python exceptions relevant to the source: FileNotFoundError
(jira_executor.py lines 67-71) and ValueError (raised throughout
tool_utils.py). -/
inductive JiraError where
  | fileNotFound (msg : String)
  | valueError (msg : String)
deriving DecidableEq

/-- Python `str(e)` on an exception: its message. -/
def JiraError.msg : JiraError → String
  | .fileNotFound m => m
  | .valueError m => m

/-- The world outside the source: whether the external jira-cli binary can
be located at the configured path (`get_jira_cli_path`, jira_executor.py
lines 22-24), the configured path itself, the subprocess behaviour for a
given argument list and stdin, and a `json.loads` oracle (`.error` carries
the JSONDecodeError text). -/
structure ExecEnv where
  binaryExists : Bool
  jiraPath : String
  respond : List String → Option String → CommandResult
  parseJson : String → Except String JsonVal

/-- The FileNotFoundError message raised in jira_executor.py lines 67-71. -/
def binaryNotFoundMsg (jiraPath : String) : String :=
  "jira-cli not found at path: " ++ jiraPath ++
    ". Please install jira-cli or set JIRA_CLI_PATH environment variable."

/-- execute_jira_command from jira_executor.py lines 27-71: run the binary
and return its CommandResult, or raise FileNotFoundError naming the
configured path when the binary cannot be located. -/
def execute_jira_command (env : ExecEnv) (args : List String)
    (stdin_input : Option String) : Except JiraError CommandResult :=
  if env.binaryExists then .ok (env.respond args stdin_input)
  else .error (.fileNotFound (binaryNotFoundMsg env.jiraPath))

/- ------------------------------------------------------------------ -/
/- Shared response-parsing helpers of tool_utils.py                    -/
/- ------------------------------------------------------------------ -/

/-- Python `[line for line in result.stdout.strip().split("\n") if
line.strip()]` (tool_utils.py lines 155 and 663). -/
def response_lines (stdout : String) : List String :=
  (pySplit (pyStrip stdout) '\n').filter fun line => pyStrip line ≠ ""

/-- Python `[col.strip() for col in line.split("\t") if col.strip()]`
(tool_utils.py lines 160 and 667): split on tab, strip each field, discard
the empty ones before positional indexing. -/
def pyColumns (line : String) : List String :=
  ((pySplit line '\t').map pyStrip).filter fun col => col ≠ ""

/- ------------------------------------------------------------------ -/
/- list_tickets, src/tools/tool_utils.py lines 86-174                  -/
/- ------------------------------------------------------------------ -/

/-- The argument list built by list_tickets (tool_utils.py lines 125-144). -/
def list_tickets_args (built_jql : Option String)
    (order_by order_direction : Option String) (limit : Int) : List String :=
  ["issue", "list", "--no-headers", "--plain", "--columns",
    "key,summary,status,priority,type,assignee"]
  ++ (if truthyS built_jql then ["--jql", built_jql.getD ""] else [])
  ++ (if truthyS order_by then
        ["--order-by", order_by.getD ""]
        ++ (if order_direction = some "asc" then ["--reverse"] else [])
      else [])
  ++ (if limit > 0 then ["--paginate", "0:" ++ toString limit] else [])

/-- One iteration of the row loop in list_tickets (tool_utils.py lines
158-172): a JiraTicket when the line has at least 5 non-empty fields,
nothing otherwise. -/
def parseTicketLine (line : String) : Option JiraTicket :=
  match pyColumns line with
  | key :: summary :: status :: priority :: ty :: rest =>
      some { key := key, summary := summary, status := status,
             priority := priority, type := ty, assignee := rest.head?,
             reporter := none, created := none, updated := none,
             description := none }
  | _ => none

/-- list_tickets from tool_utils.py lines 86-174. -/
def list_tickets (env : ExecEnv) (jql : Option String) (limit : Int)
    (assigned_to_me unassigned : Bool) (status project : Option String)
    (created_recently updated_recently : Bool)
    (order_by order_direction : Option String) :
    Except JiraError (List JiraTicket) :=
  let built_jql := build_jql_from_params jql assigned_to_me unassigned
    status project created_recently updated_recently
  let args := list_tickets_args built_jql order_by order_direction limit
  match execute_jira_command env args none with
  | .error e => .error e
  | .ok result =>
      if result.exit_code ≠ 0 then
        if pyContains result.stderr "No result found" then .ok []
        else .error (.valueError ("Failed to list tickets: " ++ result.stderr))
      else .ok ((response_lines result.stdout).filterMap parseTicketLine)

/- ------------------------------------------------------------------ -/
/- get_ticket, src/tools/tool_utils.py lines 280-356                   -/
/- ------------------------------------------------------------------ -/

/-- The comment-body conversion in get_ticket (tool_utils.py lines
321-326): `c.get("body", "")`, rendered when it is a dict, passed through
when it is a string, `str()`-ed otherwise. -/
def commentBody (c : JsonVal) : String :=
  let comment_body := (c.getKey "body").getD (.str "")
  if comment_body.isObjB then convert_adf_to_text comment_body
  else
    match comment_body with
    | .str s => s
    | other => other.pyStr

/-- One comment record built by get_ticket (tool_utils.py lines 328-334). -/
def mkJiraComment (c : JsonVal) : JiraComment :=
  { author := strD (((c.getKey "author").getD (.obj [])).getKey "displayName")
      "Unknown",
    created := strD (c.getKey "created") "",
    body := commentBody c }

/-- The `displayName if truthy else None` pattern used for assignee and
reporter (tool_utils.py lines 342-351). -/
def optDisplayName (fields : JsonVal) (k : String) : Option String :=
  if truthyOpt (fields.getKey k) then
    match ((fields.getKey k).getD (.obj [])).getKey "displayName" with
    | some (.str s) => some s
    | _ => none
  else none

/-- The response-to-JiraTicketDetail extraction of get_ticket
(tool_utils.py lines 309-356), applied to the parsed JSON value. -/
def extract_ticket_detail (raw_data : JsonVal) : JiraTicketDetail :=
  let fields := (raw_data.getKey "fields").getD (.obj [])
  let description_text :=
    match fields.getKey "description" with
    | some description =>
        if description.truthy && description.isObjB then
          convert_adf_to_text description
        else ""
    | none => ""
  let comment_data :=
    (((fields.getKey "comment").getD (.obj [])).getKey "comments").getD
      (.arr []) |>.asArr
  { key := getStr raw_data "key" "",
    summary := getStr fields "summary" "",
    status := getStr ((fields.getKey "status").getD (.obj [])) "name" "",
    priority := getStr ((fields.getKey "priority").getD (.obj [])) "name" "",
    type := getStr ((fields.getKey "issuetype").getD (.obj [])) "name" "",
    assignee := optDisplayName fields "assignee",
    reporter := optDisplayName fields "reporter",
    created := some (getStr fields "created" ""),
    updated := some (getStr fields "updated" ""),
    description := description_text,
    comments := comment_data.map mkJiraComment }

/-- get_ticket from tool_utils.py lines 280-356. -/
def get_ticket (env : ExecEnv) (ticket_key : String) (comments : Int) :
    Except JiraError JiraTicketDetail :=
  let args := ["issue", "view", ticket_key, "--raw"]
    ++ (if comments > 0 then ["--comments", toString comments] else [])
  match execute_jira_command env args none with
  | .error e => .error e
  | .ok result =>
      if result.exit_code ≠ 0 then
        .error (.valueError ("Failed to get ticket " ++ ticket_key ++ ": " ++
          result.stderr))
      else
        match env.parseJson result.stdout with
        | .error _ =>
            .error (.valueError ("Failed to parse jira response: " ++
              result.stdout))
        | .ok raw_data => .ok (extract_ticket_detail raw_data)

/- ------------------------------------------------------------------ -/
/- create_ticket, src/tools/tool_utils.py lines 359-441                -/
/- ------------------------------------------------------------------ -/

/-- Python truthiness of a `list[...] | None` parameter. -/
def truthyL {α : Type} : Option (List α) → Bool
  | some l => if l.isEmpty then false else true
  | none => false

/-- The repeated-flag loops (`for x in xs: args.extend([flag, x])`). -/
def flagEach (flag : String) (xs : List String) : List String :=
  (xs.map fun x => [flag, x]).flatten

/-- The argument list and stdin built by create_ticket (tool_utils.py lines
384-415). -/
def create_ticket_args (project issue_type summary : String)
    (description priority assignee : Option String)
    (labels components : Option (List String)) :
    List String × Option String :=
  let args := ["issue", "create", "--project", project, "--type", issue_type,
    "--summary", summary, "--no-input", "--raw"]
  let args := args ++ (if truthyS priority then
    ["--priority", priority.getD ""] else [])
  let args := args ++ (if truthyS assignee then
    ["--assignee", assignee.getD ""] else [])
  let args := args ++ (if truthyL labels then
    flagEach "--label" (labels.getD []) else [])
  let args := args ++ (if truthyL components then
    flagEach "--component" (components.getD []) else [])
  if truthyS description then
    (args ++ ["--template", "-"], description)
  else (args, none)

/-- create_ticket from tool_utils.py lines 359-441.  The whole body runs
inside `try/except Exception`, so no exception escapes: every failure —
including a raised FileNotFoundError — is converted to a
CreateTicketResult value with success=False. -/
def create_ticket (env : ExecEnv) (project issue_type summary : String)
    (description priority assignee : Option String)
    (labels components : Option (List String)) : CreateTicketResult :=
  let argsIn := create_ticket_args project issue_type summary description
    priority assignee labels components
  match execute_jira_command env argsIn.1 argsIn.2 with
  | .error e =>
      { success := false, ticket_key := none, ticket_url := none,
        error := some ("Failed to create ticket: " ++ e.msg) }
  | .ok result =>
      if result.exit_code ≠ 0 then
        { success := false, ticket_key := none, ticket_url := none,
          error := some (if result.stderr = "" then "Failed to create ticket"
            else result.stderr) }
      else
        match env.parseJson result.stdout with
        | .error emsg =>
            { success := false, ticket_key := none, ticket_url := none,
              error := some ("Failed to create ticket: " ++ emsg) }
        | .ok output =>
            { success := true, ticket_key := some (getStr output "key" ""),
              ticket_url := some (getStr output "self" ""), error := none }

/- ------------------------------------------------------------------ -/
/- move_ticket, src/tools/tool_utils.py lines 444-504                  -/
/- ------------------------------------------------------------------ -/

/-- The first (status-lookup) argument list of move_ticket (tool_utils.py
lines 458-469). -/
def move_ticket_view_args (ticket_key : String) : List String :=
  ["issue", "list", "--jql", "key = " ++ ticket_key, "--plain",
    "--no-headers", "--columns", "status"]

/-- The current-status parsing of move_ticket (tool_utils.py lines
476-481): strip the stdout, split on tab, take field 1 when present else
field 0, strip it, and fall back to "Unknown" when it is empty. -/
def parseCurrentStatus (stdout : String) : String :=
  let output_parts := pySplit (pyStrip stdout) '\t'
  let current_status :=
    if output_parts.length > 1 then output_parts[1]! else output_parts[0]!
  if current_status = "" then "Unknown" else pyStrip current_status

/-- move_ticket from tool_utils.py lines 444-504: normalize the target
status, look up the current status, then issue the transition with the
normalized target. -/
def move_ticket (env : ExecEnv) (ticket_key status : String) :
    Except JiraError MoveTicketResult :=
  let target_status := normalize_status status
  match execute_jira_command env (move_ticket_view_args ticket_key) none with
  | .error e => .error e
  | .ok view_result =>
      if view_result.exit_code ≠ 0 then
        .error (.valueError ("Failed to get current status for " ++
          ticket_key ++ ": " ++ view_result.stderr))
      else
        let current_status := parseCurrentStatus view_result.stdout
        match execute_jira_command env
            ["issue", "move", ticket_key, target_status] none with
        | .error e => .error e
        | .ok move_result =>
            if move_result.exit_code ≠ 0 then
              .error (.valueError ("Failed to move ticket " ++ ticket_key ++
                ": " ++ move_result.stderr))
            else
              .ok
                { success := true,
                  ticket_key := ticket_key,
                  previous_status := current_status,
                  new_status := target_status,
                  message := "Successfully moved " ++ ticket_key ++
                    " from " ++ current_status ++ " to " ++ target_status }

/- ------------------------------------------------------------------ -/
/- add_comment, assign_to_me, open_ticket_in_browser,                   -/
/- update_ticket_description (tool_utils.py lines 507-616)              -/
/- ------------------------------------------------------------------ -/

/-- add_comment from tool_utils.py lines 507-529. -/
def add_comment (env : ExecEnv) (ticket_key comment : String) :
    Except JiraError AddCommentResult :=
  match execute_jira_command env
      ["issue", "comment", "add", ticket_key, "--no-input"] (some comment) with
  | .error e => .error e
  | .ok result =>
      if result.exit_code ≠ 0 then
        .error (.valueError ("Failed to add comment to " ++ ticket_key ++
          ": " ++ result.stderr))
      else
        .ok
          { success := true,
            ticket_key := ticket_key,
            message := "Successfully added comment to " ++ ticket_key }

/-- assign_to_me from tool_utils.py lines 532-570. -/
def assign_to_me (env : ExecEnv) (ticket_key : String) :
    Except JiraError AssignToMeResult :=
  match execute_jira_command env ["me"] none with
  | .error e => .error e
  | .ok me_result =>
      if me_result.exit_code ≠ 0 then
        .error (.valueError ("Failed to get current user: " ++
          me_result.stderr))
      else
        let current_user := pyStrip me_result.stdout
        if current_user = "" then
          .error (.valueError "Unable to determine current user")
        else
          match execute_jira_command env
              ["issue", "assign", ticket_key, current_user] none with
          | .error e => .error e
          | .ok assign_result =>
              if assign_result.exit_code ≠ 0 then
                .error (.valueError ("Failed to assign ticket " ++
                  ticket_key ++ ": " ++ assign_result.stderr))
              else
                .ok
                  { success := true,
                    ticket_key := ticket_key,
                    assignee := current_user,
                    message := "Successfully assigned " ++ ticket_key ++
                      " to " ++ current_user }

/-- open_ticket_in_browser from tool_utils.py lines 573-589. -/
def open_ticket_in_browser (env : ExecEnv) (ticket_key : String) :
    Except JiraError String :=
  match execute_jira_command env ["open", ticket_key] none with
  | .error e => .error e
  | .ok result =>
      if result.exit_code ≠ 0 then
        .error (.valueError ("Failed to open ticket " ++ ticket_key ++
          " in browser: " ++ result.stderr))
      else .ok ("Successfully opened ticket " ++ ticket_key ++ " in browser")

/-- update_ticket_description from tool_utils.py lines 592-616. -/
def update_ticket_description (env : ExecEnv)
    (ticket_key description : String) :
    Except JiraError UpdateDescriptionResult :=
  match execute_jira_command env ["issue", "edit", ticket_key, "--no-input"]
      (some description) with
  | .error e => .error e
  | .ok result =>
      if result.exit_code ≠ 0 then
        .error (.valueError ("Failed to update ticket " ++ ticket_key ++
          ": " ++ result.stderr))
      else
        .ok
          { success := true,
            ticket_key := ticket_key,
            message := "Successfully updated description for " ++
              ticket_key }

/- ------------------------------------------------------------------ -/
/- list_sprints, src/tools/tool_utils.py lines 619-680                 -/
/- ------------------------------------------------------------------ -/

/-- Python `int(s)` on a stripped decimal literal, as a value; `none`
models the raised ValueError (its CPython message text is not
reproduced). -/
def pyInt (s : String) : Option Int :=
  match (pyStrip s).data with
  | '-' :: rest => (parseNatChars rest).map fun n => -(n : Int)
  | '+' :: rest => (parseNatChars rest).map fun n => (n : Int)
  | cs => (parseNatChars cs).map fun n => (n : Int)

/-- The argument list built by list_sprints (tool_utils.py lines 634-649). -/
def list_sprints_args (board_id : Int) (state : Option String)
    (limit : Int) : List String :=
  ["sprint", "list", "--board", toString board_id, "--plain", "--no-headers",
    "--columns", "id,name,state,startdate,enddate"]
  ++ (if truthyS state then ["--state", state.getD ""] else [])
  ++ (if limit > 0 then ["--paginate", "0:" ++ toString limit] else [])

/-- The row loop of list_sprints (tool_utils.py lines 666-678): rows with
fewer than 3 non-empty fields are skipped; `int(columns[0])` raises on a
non-numeric id, which aborts the whole listing. -/
def parseSprintLines : List String → Except JiraError (List Sprint)
  | [] => .ok []
  | line :: rest =>
      match pyColumns line with
      | c0 :: c1 :: c2 :: extra =>
          match pyInt c0 with
          | none =>
              .error (.valueError ("invalid literal for int(): " ++ c0))
          | some idNum =>
              match parseSprintLines rest with
              | .error e => .error e
              | .ok sprints =>
                  .ok
                    ({ id := idNum, name := c1, state := c2,
                       start_date := extra.head?, end_date := extra.get? 1,
                       goal := none } :: sprints)
      | _ => parseSprintLines rest

/-- list_sprints from tool_utils.py lines 619-680. -/
def list_sprints (env : ExecEnv) (board_id : Int) (state : Option String)
    (limit : Int) : Except JiraError ListSprintsResult :=
  let args := list_sprints_args board_id state limit
  match execute_jira_command env args none with
  | .error e => .error e
  | .ok result =>
      if result.exit_code ≠ 0 then
        if pyContains result.stderr "No result found" ||
            pyContains (pyLower result.stderr) "no sprints" then
          .ok { sprints := [] }
        else
          .error (.valueError ("Failed to list sprints: " ++ result.stderr))
      else
        match parseSprintLines (response_lines result.stdout) with
        | .error e => .error e
        | .ok sprints => .ok { sprints := sprints }

/- ------------------------------------------------------------------ -/
/- add_to_sprint / remove_from_sprint (tool_utils.py lines 683-740)    -/
/- ------------------------------------------------------------------ -/

/-- add_to_sprint from tool_utils.py lines 683-707. -/
def add_to_sprint (env : ExecEnv) (ticket_key : String) (sprint_id : Int) :
    Except JiraError AddToSprintResult :=
  match execute_jira_command env
      ["sprint", "add", toString sprint_id, ticket_key] none with
  | .error e => .error e
  | .ok result =>
      if result.exit_code ≠ 0 then
        .error (.valueError ("Failed to add " ++ ticket_key ++
          " to sprint " ++ toString sprint_id ++ ": " ++ result.stderr))
      else
        .ok
          { success := true,
            ticket_key := ticket_key,
            sprint_id := sprint_id,
            message := "Successfully added " ++ ticket_key ++
              " to sprint " ++ toString sprint_id }

/-- remove_from_sprint from tool_utils.py lines 710-740. -/
def remove_from_sprint (env : ExecEnv) (ticket_key : String) :
    Except JiraError RemoveFromSprintResult :=
  match execute_jira_command env
      ["issue", "edit", ticket_key, "--custom", "sprint=", "--no-input"]
      none with
  | .error e => .error e
  | .ok result =>
      if result.exit_code ≠ 0 then
        .error (.valueError ("Failed to remove " ++ ticket_key ++
          " from sprint: " ++ result.stderr))
      else
        .ok
          { success := true,
            ticket_key := ticket_key,
            message := "Successfully removed " ++ ticket_key ++
              " from its sprint" }

/- ------------------------------------------------------------------ -/
/- edit_ticket, src/tools/tool_utils.py lines 743-851                  -/
/- ------------------------------------------------------------------ -/

/-- The argument list and touched-field list accumulated by edit_ticket
(tool_utils.py lines 774-830). -/
def edit_ticket_args (ticket_key : String)
    (summary priority assignee : Option String)
    (labels add_labels remove_labels components fix_versions :
      Option (List String))
    (parent : Option String)
    (custom_fields : Option (List (String × String))) :
    List String × List String :=
  (["issue", "edit", ticket_key, "--no-input"]
    ++ (if truthyS summary then ["--summary", summary.getD ""] else [])
    ++ (if truthyS priority then ["--priority", priority.getD ""] else [])
    ++ (match assignee with
        | some a => if a = "" then ["--assignee", "x"] else ["--assignee", a]
        | none => [])
    ++ (if truthyL labels then flagEach "--label" (labels.getD []) else [])
    ++ (if truthyL add_labels then
          flagEach "--label" ((add_labels.getD []).map fun l => "+" ++ l)
        else [])
    ++ (if truthyL remove_labels then
          flagEach "--label" ((remove_labels.getD []).map fun l => "-" ++ l)
        else [])
    ++ (if truthyL components then
          flagEach "--component" (components.getD []) else [])
    ++ (if truthyL fix_versions then
          flagEach "--fix-version" (fix_versions.getD []) else [])
    ++ (if truthyS parent then ["--parent", parent.getD ""] else [])
    ++ (if truthyL custom_fields then
          ((custom_fields.getD []).map fun kv =>
            ["--custom", kv.1 ++ "=" ++ kv.2]).flatten
        else []),
   (if truthyS summary then ["summary"] else [])
    ++ (if truthyS priority then ["priority"] else [])
    ++ (match assignee with | some _ => ["assignee"] | none => [])
    ++ (if truthyL labels then ["labels"] else [])
    ++ (if truthyL add_labels then ["labels (added)"] else [])
    ++ (if truthyL remove_labels then ["labels (removed)"] else [])
    ++ (if truthyL components then ["components"] else [])
    ++ (if truthyL fix_versions then ["fix_versions"] else [])
    ++ (if truthyS parent then ["parent"] else [])
    ++ (if truthyL custom_fields then
          (custom_fields.getD []).map fun kv => "custom:" ++ kv.1
        else []))

/-- edit_ticket from tool_utils.py lines 743-851: with zero touched fields
it returns a success=False value before any executor call; otherwise it
invokes the executor once and raises on a non-zero exit. -/
def edit_ticket (env : ExecEnv) (ticket_key : String)
    (summary priority assignee : Option String)
    (labels add_labels remove_labels components fix_versions :
      Option (List String))
    (parent : Option String)
    (custom_fields : Option (List (String × String))) :
    Except JiraError EditTicketResult :=
  let acc := edit_ticket_args ticket_key summary priority assignee labels
    add_labels remove_labels components fix_versions parent custom_fields
  let updated_fields := acc.2
  if updated_fields.isEmpty then
    .ok
      { success := false,
        ticket_key := ticket_key,
        message := "No fields specified to update",
        updated_fields := [] }
  else
    match execute_jira_command env acc.1 none with
    | .error e => .error e
    | .ok result =>
        if result.exit_code ≠ 0 then
          .error (.valueError ("Failed to edit ticket " ++ ticket_key ++
            ": " ++ result.stderr))
        else
          .ok
            { success := true,
              ticket_key := ticket_key,
              message := "Successfully updated " ++ ticket_key ++ ": " ++
                String.intercalate ", " updated_fields,
              updated_fields := updated_fields }

/- ------------------------------------------------------------------ -/
/- Spec-side twin definitions (for the refinement claims C4 and C6)    -/
/- ------------------------------------------------------------------ -/

/-- Written from the spec's words (§4.4): the fixed table of known status
names mapped to their canonical capitalized display forms. -/
def specStatusTable : List (String × String) :=
  [("open", "Open"),
   ("in progress", "In Progress"),
   ("in review", "In Review"),
   ("done", "Done"),
   ("closed", "Closed"),
   ("canceled", "Canceled"),
   ("todo", "To Do"),
   ("to do", "To Do"),
   ("backlog", "Backlog"),
   ("blocked", "Blocked"),
   ("ready for review", "Ready for Review"),
   ("ready for qa", "Ready for QA"),
   ("in qa", "In QA"),
   ("deployed", "Deployed")]

/-- Written from the spec's words (§4.4): lower-case `s`, look it up in the
fixed table, return the canonical form on a hit, return the input unchanged
otherwise. -/
def normalize_spec (s : String) : String :=
  match lookupStr specStatusTable (pyLower s) with
  | some v => v
  | none => s

/-- The two status tables coincide, hence so do the two normalizers
(shared helper, not itself a claim theorem). -/
theorem normalize_spec_eq_normalize_status (s : String) :
    normalize_spec s = normalize_status s := rfl

/-- Written from the spec's words (§4.3): accumulate clauses in the fixed
order assignee / status / project / created / updated, `assignedToMe`
taking precedence over `unassigned`, status normalized and quoted, project
unquoted; return the raw query verbatim when non-empty; return absence of
a query when no clause was added. -/
def build_jql_spec (raw : Option String) (assignedToMe unassigned : Bool)
    (status project : Option String)
    (createdRecently updatedRecently : Bool) : Option String :=
  if truthyS raw then raw
  else
    let clauses : List String :=
      (if assignedToMe then ["assignee = currentUser()"] else [])
      ++ (if !assignedToMe && unassigned then ["assignee is EMPTY"] else [])
      ++ (if truthyS status then
            ["status = \"" ++ normalize_spec (status.getD "") ++ "\""]
          else [])
      ++ (if truthyS project then ["project = " ++ project.getD ""] else [])
      ++ (if createdRecently then ["created >= -7d"] else [])
      ++ (if updatedRecently then ["updated >= -7d"] else [])
    if clauses = [] then none
    else some (String.intercalate " AND " clauses)

/- ------------------------------------------------------------------ -/
/- Claim theorems                                                      -/
/- ------------------------------------------------------------------ -/

/-- The block kinds the renderer's if/elif chain recognizes (tool_utils.py
lines 213-275); everything else falls through the chain without touching
`parts`. -/
def blockTypeKnown (block : JsonVal) : Bool :=
  match block.getKey "type" with
  | some (.str t) =>
      t == "paragraph" || t == "heading" || t == "bulletList" ||
      t == "orderedList" || t == "codeBlock" || t == "rule" ||
      t == "blockquote"
  | _ => false

/-- A block of unrecognized kind appends nothing to `parts` (shared
helper). -/
theorem renderBlock_of_unknown (block : JsonVal)
    (h : blockTypeKnown block = false) : renderBlock block = none := by
  unfold blockTypeKnown at h
  unfold renderBlock
  rcases hk : block.getKey "type" with _ | v
  · rfl
  · rw [hk] at h
    rcases v with _ | b | n | t | xs | fs
    · rfl
    · rfl
    · rfl
    · simp only [Bool.or_eq_false_iff, beq_eq_false_iff_ne, ne_eq] at h
      obtain ⟨⟨⟨⟨⟨⟨h1, h2⟩, h3⟩, h4⟩, h5⟩, h6⟩, h7⟩ := h
      split <;> simp_all
    · rfl
    · rfl

/-- C4: the query builder returns a non-empty raw query verbatim ignoring
every other parameter; otherwise it accumulates clauses in the fixed order
(assignee, status, project, created, updated) joined with " AND ", with
assignedToMe taking precedence over unassigned, status normalized and
quoted, project unquoted, and yields the no-filter value (none) when no
clause was added.  Stated as equality with `build_jql_spec`, the builder
written from the spec's words, for every input. -/
theorem C4_build_jql (jql : Option String) (assigned_to_me unassigned : Bool)
    (status project : Option String)
    (created_recently updated_recently : Bool) :
    build_jql_from_params jql assigned_to_me unassigned status project
        created_recently updated_recently =
      build_jql_spec jql assigned_to_me unassigned status project
        created_recently updated_recently := by
  unfold build_jql_from_params build_jql_spec
  cases jql <;> cases assigned_to_me <;> cases unassigned <;>
    cases status <;> cases project <;>
      simp [truthyS, normalize_spec_eq_normalize_status, List.isEmpty_iff]

/-- C6: normalize lower-cases the input and looks it up in the fixed table
of 14 known status names, returning the canonical capitalized form on a
hit and the input unchanged (original casing) on a miss, the empty string
mapping to itself; normalize("OPEN") = "Open",
normalize("Custom Status") = "Custom Status", normalize("") = "".  The
table lookup is stated both as equality with the spec-written normalizer
and through the hit/miss characterization. -/
theorem C6_normalize_status (s v : String) :
    normalize_status s = normalize_spec s ∧
    (lookupStr COMMON_STATUS_MAP (pyLower s) = some v →
      normalize_status s = v) ∧
    (lookupStr COMMON_STATUS_MAP (pyLower s) = none →
      normalize_status s = s) ∧
    normalize_status "OPEN" = "Open" ∧
    normalize_status "Custom Status" = "Custom Status" ∧
    normalize_status "" = "" := by
  refine ⟨rfl, ?_, ?_, rfl, rfl, rfl⟩
  · intro h; unfold normalize_status; rw [h]
  · intro h; unfold normalize_status; rw [h]

/-- Witness for C6 at a concrete input: "open" is in the table, and the
theorem yields normalize_status "OPEN" = "Open". -/
theorem C6_normalize_status_witness :
    lookupStr COMMON_STATUS_MAP (pyLower "OPEN") = some "Open" ∧
    normalize_status "OPEN" = "Open" :=
  ⟨by decide, (C6_normalize_status "OPEN" "Open").2.1 (by decide)⟩

/-- C7: editTicket with no optional field parameter set returns a
success=false value with an empty updated-fields list, as a value rather
than a raised error, for EVERY environment — in particular for an
environment in which any executor invocation would fail, which proves the
Command Executor is not invoked. -/
theorem C7_edit_ticket_no_fields (env : ExecEnv) (ticket_key : String) :
    edit_ticket env ticket_key none none none none none none none none none
        none =
      .ok { success := false, ticket_key := ticket_key,
            message := "No fields specified to update",
            updated_fields := [] } := rfl

/-- C5: the renderer is pure and total (witnessed by `renderBlock` and
`convert_adf_to_text` being total functions over every JsonVal, with no
error channel in their types); blocks of unknown kind are skipped silently
and contribute nothing to the document rendering; missing optional
attributes take their defaults — a heading with no attrs renders exactly
as one with level=1, an orderedList with no attrs exactly as one with
start=1, a codeBlock with no attrs exactly as one with language="". -/
theorem C5_renderer_total_skip_defaults (block : JsonVal)
    (rest c : List JsonVal) :
    (blockTypeKnown block = false → renderBlock block = none) ∧
    (blockTypeKnown block = false →
      convert_adf_to_text (.obj [("content", .arr (block :: rest))]) =
        convert_adf_to_text (.obj [("content", .arr rest)])) ∧
    (renderBlock (.obj [("type", .str "heading"), ("content", .arr c)]) =
      renderBlock (.obj [("type", .str "heading"),
        ("attrs", .obj [("level", .num 1)]), ("content", .arr c)])) ∧
    (renderBlock (.obj [("type", .str "orderedList"), ("content", .arr c)]) =
      renderBlock (.obj [("type", .str "orderedList"),
        ("attrs", .obj [("start", .num 1)]), ("content", .arr c)])) ∧
    (renderBlock (.obj [("type", .str "codeBlock"), ("content", .arr c)]) =
      renderBlock (.obj [("type", .str "codeBlock"),
        ("attrs", .obj [("language", .str "")]), ("content", .arr c)])) := by
  refine ⟨renderBlock_of_unknown block, ?_, rfl, rfl, rfl⟩
  intro h
  simp [convert_adf_to_text, JsonVal.getKey, assocGet, JsonVal.asArr,
    renderBlock_of_unknown block h]

/-- Witness for C5 at a concrete input: a "panel" block (a real ADF kind
the renderer does not handle) is skipped and contributes nothing. -/
theorem C5_witness :
    blockTypeKnown (.obj [("type", .str "panel")]) = false ∧
    renderBlock (.obj [("type", .str "panel")]) = none ∧
    convert_adf_to_text (.obj [("content",
      .arr [.obj [("type", .str "panel")],
            .obj [("type", .str "rule")]])]) =
      convert_adf_to_text (.obj [("content",
        .arr [.obj [("type", .str "rule")]])]) :=
  ⟨by decide,
   (C5_renderer_total_skip_defaults (.obj [("type", .str "panel")]) [] []).1
     (by decide),
   (C5_renderer_total_skip_defaults (.obj [("type", .str "panel")])
     [.obj [("type", .str "rule")]] []).2.1 (by decide)⟩

/-- C3 counterexample: the claim says EVERY known block kind with no
content produces no output fragment, including codeBlock.  On the code, a
codeBlock with no content still appends an (empty) fenced block, so a
document whose only block is an empty codeBlock does not render to the
empty string. -/
theorem C3_counterexample :
    convert_adf_to_text
        (.obj [("content", .arr [.obj [("type", .str "codeBlock")]])]) =
      "```\n\n```" ∧
    convert_adf_to_text
        (.obj [("content", .arr [.obj [("type", .str "codeBlock")]])]) ≠
      "" :=
  ⟨rfl, by decide⟩

/-- C3 amended: paragraph, heading, bulletList, orderedList and blockquote
blocks with no content produce no output fragment and contribute nothing
to the join; a codeBlock always produces a fenced fragment (an empty fence
when it has no content); a rule block always produces the "---" fragment;
the produced fragments are joined by exactly one blank line ("\n\n");
rendering the empty document yields the empty string. -/
theorem C3_amended (block : JsonVal) (blocks : List JsonVal) :
    (block.getKey "type" = some (.str "paragraph") →
      blockContent block = [] → renderBlock block = none) ∧
    (block.getKey "type" = some (.str "heading") →
      blockContent block = [] → renderBlock block = none) ∧
    (block.getKey "type" = some (.str "bulletList") →
      blockContent block = [] → renderBlock block = none) ∧
    (block.getKey "type" = some (.str "orderedList") →
      blockContent block = [] → renderBlock block = none) ∧
    (block.getKey "type" = some (.str "blockquote") →
      blockContent block = [] → renderBlock block = none) ∧
    (block.getKey "type" = some (.str "codeBlock") →
      blockContent block = [] →
      renderBlock block =
        some ("```" ++ attrStr block "language" "" ++ "\n\n```")) ∧
    (block.getKey "type" = some (.str "rule") →
      renderBlock block = some "---") ∧
    (convert_adf_to_text (.obj [("content", .arr blocks)]) =
      String.intercalate "\n\n" (blocks.filterMap renderBlock)) ∧
    convert_adf_to_text (.obj []) = "" ∧
    convert_adf_to_text (.obj [("content", .arr [])]) = "" := by
  refine ⟨?_, ?_, ?_, ?_, ?_, ?_, ?_, rfl, rfl, rfl⟩
  case refine_7 =>
    intro ht
    simp [renderBlock, ht]
  all_goals intro ht hc
  all_goals
    simp [renderBlock, ht, hc, process_inline_content, listItemParts,
      String.join]
  rw [String.append_assoc]
  exact rfl

/-- Witness for C3 amended at concrete inputs: an empty paragraph is
dropped, an empty codeBlock still produces an empty fence, and a rule
block produces "---". -/
theorem C3_amended_witness :
    renderBlock (.obj [("type", .str "paragraph"), ("content", .arr [])]) =
      none ∧
    renderBlock (.obj [("type", .str "codeBlock")]) =
      some ("```" ++
        attrStr (.obj [("type", .str "codeBlock")]) "language" "" ++
        "\n\n```") ∧
    renderBlock (.obj [("type", .str "rule")]) = some "---" :=
  ⟨(C3_amended (.obj [("type", .str "paragraph"), ("content", .arr [])])
      []).1 rfl rfl,
   (C3_amended (.obj [("type", .str "codeBlock")]) []).2.2.2.2.2.1 rfl rfl,
   (C3_amended (.obj [("type", .str "rule")]) []).2.2.2.2.2.2.1 rfl⟩

/-- A getTicket scenario whose parsed response carries a PLAIN STRING
description ("Hello") and a plain-string comment body: the binary exists,
the command succeeds, and json.loads yields the fixed ticket object. -/
def envC1 : ExecEnv :=
  { binaryExists := true
    jiraPath := "jira"
    respond := fun _ _ => { stdout := "raw", stderr := "", exit_code := 0 }
    parseJson := fun _ => .ok (.obj
      [("key", .str "TEST-1"),
       ("fields", .obj
         [("summary", .str "S"),
          ("description", .str "Hello"),
          ("comment", .obj [("comments", .arr
            [.obj [("body", .str "plain comment")]])])])]) }

/-- C1 counterexample: the claim says a plain-string description is passed
through unchanged, i.e. the returned detail's description would be
"Hello"; on the code it is the empty string, because get_ticket only
renders `description` when `isinstance(description, dict)` holds and
otherwise leaves the initial "" in place (tool_utils.py lines 311-315). -/
theorem C1_counterexample :
    (get_ticket envC1 "TEST-1" 5).map JiraTicketDetail.description =
      .ok "" ∧
    ((Except.ok "" : Except JiraError String) ≠ .ok "Hello") :=
  ⟨rfl, by simp⟩

/-- C1 amended: a rich-document (non-empty dict) description is rendered
via the renderer, but a plain-string description yields the EMPTY string
(it is not passed through); comment bodies behave as claimed — a
plain-string body is passed through unchanged and a dict body is rendered
via the renderer; the returned comments are exactly the response's comment
list mapped through the comment constructor. -/
theorem C1_amended (raw_data c : JsonVal) (s : String)
    (fs : List (String × JsonVal)) :
    (((raw_data.getKey "fields").getD (.obj [])).getKey "description" =
        some (.str s) →
      (extract_ticket_detail raw_data).description = "") ∧
    (((raw_data.getKey "fields").getD (.obj [])).getKey "description" =
        some (.obj fs) → fs ≠ [] →
      (extract_ticket_detail raw_data).description =
        convert_adf_to_text (.obj fs)) ∧
    (c.getKey "body" = some (.str s) → (mkJiraComment c).body = s) ∧
    (c.getKey "body" = some (.obj fs) →
      (mkJiraComment c).body = convert_adf_to_text (.obj fs)) ∧
    ((extract_ticket_detail raw_data).comments =
      (((((((raw_data.getKey "fields").getD (.obj [])).getKey
        "comment").getD (.obj [])).getKey "comments").getD
        (.arr [])).asArr).map mkJiraComment) := by
  refine ⟨?_, ?_, ?_, ?_, rfl⟩
  · intro h
    simp [extract_ticket_detail, h, JsonVal.isObjB]
  · intro h hfs
    simp [extract_ticket_detail, h, JsonVal.isObjB, JsonVal.truthy,
      List.isEmpty_iff, hfs]
  · intro h
    simp [mkJiraComment, commentBody, h, JsonVal.isObjB]
  · intro h
    simp [mkJiraComment, commentBody, h, JsonVal.isObjB]

/-- Witness for C1 amended at the concrete envC1 response object: the
plain-string description becomes "", and the plain-string comment body is
passed through. -/
theorem C1_amended_witness :
    (extract_ticket_detail (.obj
      [("key", .str "TEST-1"),
       ("fields", .obj
         [("summary", .str "S"),
          ("description", .str "Hello"),
          ("comment", .obj [("comments", .arr
            [.obj [("body", .str "plain comment")]])])])])).description =
      "" ∧
    (mkJiraComment (.obj [("body", .str "plain comment")])).body =
      "plain comment" :=
  ⟨(C1_amended (.obj
      [("key", .str "TEST-1"),
       ("fields", .obj
         [("summary", .str "S"),
          ("description", .str "Hello"),
          ("comment", .obj [("comments", .arr
            [.obj [("body", .str "plain comment")]])])])])
      (.obj [("body", .str "plain comment")]) "Hello" []).1 rfl,
   (C1_amended (.obj [])
      (.obj [("body", .str "plain comment")]) "plain comment" []).2.2.1
      rfl⟩

/-- An environment in which the external binary cannot be located at the
configured path. -/
def envNoBinary : ExecEnv :=
  { binaryExists := false
    jiraPath := "jira"
    respond := fun _ _ => { stdout := "", stderr := "", exit_code := 0 }
    parseJson := fun _ => .error "Expecting value: line 1 column 1 (char 0)" }

/-- C2 counterexample: the claim says the binary-not-found failure is never
converted into a success-flag failure value, in particular for
createTicket.  On the code, create_ticket's `try/except Exception` catches
the raised FileNotFoundError and returns a CreateTicketResult value with
success=False (its return type has no raise channel at all), so with the
binary missing createTicket yields a failure VALUE carrying the
binary-not-found text instead of propagating the exception. -/
theorem C2_counterexample :
    (create_ticket envNoBinary "PROJ" "Bug" "Summary" none none none none
        none).success = false ∧
    (create_ticket envNoBinary "PROJ" "Bug" "Summary" none none none none
        none).error =
      some ("Failed to create ticket: " ++ binaryNotFoundMsg "jira") :=
  ⟨rfl, rfl⟩

/-- C2 amended: when the external binary cannot be located at the
configured path, every operation EXCEPT createTicket raises a
binary-not-found error naming the configured path, which propagates
unconverted and unretried (a single raised error per call); createTicket
alone catches it and returns a success=false failure value whose error
text carries the same binary-not-found message. -/
theorem C2_amended (env : ExecEnv) (h : env.binaryExists = false)
    (jql status project order_by order_direction state descr prio asgn
      parent : Option String)
    (assigned_to_me unassigned created_recently updated_recently : Bool)
    (limit comments board_id sprint_id : Int)
    (key text proj ty summ : String)
    (labels add_labels remove_labels components fix_versions :
      Option (List String))
    (custom_fields : Option (List (String × String))) :
    list_tickets env jql limit assigned_to_me unassigned status project
        created_recently updated_recently order_by order_direction =
      .error (.fileNotFound (binaryNotFoundMsg env.jiraPath)) ∧
    get_ticket env key comments =
      .error (.fileNotFound (binaryNotFoundMsg env.jiraPath)) ∧
    move_ticket env key text =
      .error (.fileNotFound (binaryNotFoundMsg env.jiraPath)) ∧
    add_comment env key text =
      .error (.fileNotFound (binaryNotFoundMsg env.jiraPath)) ∧
    assign_to_me env key =
      .error (.fileNotFound (binaryNotFoundMsg env.jiraPath)) ∧
    open_ticket_in_browser env key =
      .error (.fileNotFound (binaryNotFoundMsg env.jiraPath)) ∧
    update_ticket_description env key text =
      .error (.fileNotFound (binaryNotFoundMsg env.jiraPath)) ∧
    list_sprints env board_id state limit =
      .error (.fileNotFound (binaryNotFoundMsg env.jiraPath)) ∧
    add_to_sprint env key sprint_id =
      .error (.fileNotFound (binaryNotFoundMsg env.jiraPath)) ∧
    remove_from_sprint env key =
      .error (.fileNotFound (binaryNotFoundMsg env.jiraPath)) ∧
    edit_ticket env key (some "New summary") prio asgn labels add_labels
        remove_labels components fix_versions parent custom_fields =
      .error (.fileNotFound (binaryNotFoundMsg env.jiraPath)) ∧
    create_ticket env proj ty summ descr prio asgn labels components =
      { success := false, ticket_key := none, ticket_url := none,
        error := some ("Failed to create ticket: " ++
          binaryNotFoundMsg env.jiraPath) } := by
  refine ⟨?_, ?_, ?_, ?_, ?_, ?_, ?_, ?_, ?_, ?_, ?_, ?_⟩ <;>
    simp [list_tickets, get_ticket, move_ticket, add_comment, assign_to_me,
      open_ticket_in_browser, update_ticket_description, list_sprints,
      add_to_sprint, remove_from_sprint, edit_ticket, edit_ticket_args,
      create_ticket, execute_jira_command, h, truthyS, JiraError.msg]

/-- Witness for C2 amended at the concrete no-binary environment. -/
theorem C2_amended_witness :
    envNoBinary.binaryExists = false ∧
    list_tickets envNoBinary none 20 false false none none false false none
        none =
      .error (.fileNotFound (binaryNotFoundMsg "jira")) ∧
    move_ticket envNoBinary "TEST-1" "done" =
      .error (.fileNotFound (binaryNotFoundMsg "jira")) :=
  ⟨rfl,
   (C2_amended envNoBinary rfl none none none none none none none none none
     none false false false false 20 5 1 1 "TEST-1" "done" "PROJ" "Bug"
     "Summary" none none none none none none).1,
   (C2_amended envNoBinary rfl none none none none none none none none none
     none false false false false 20 5 1 1 "TEST-1" "done" "PROJ" "Bug"
     "Summary" none none none none none none).2.2.1⟩

/-- C8: when the external command behind listTickets exits non-zero, the
operation returns the empty list if the stderr text contains
"No result found", and otherwise raises a command-failure error carrying
the stderr text. -/
theorem C8_list_tickets_no_result (env : ExecEnv)
    (h : env.binaryExists = true)
    (jql status project order_by order_direction : Option String)
    (assigned_to_me unassigned created_recently updated_recently : Bool)
    (limit : Int) (r : CommandResult)
    (hr : env.respond
        (list_tickets_args
          (build_jql_from_params jql assigned_to_me unassigned status
            project created_recently updated_recently)
          order_by order_direction limit) none = r)
    (hexit : r.exit_code ≠ 0) :
    (pyContains r.stderr "No result found" = true →
      list_tickets env jql limit assigned_to_me unassigned status project
          created_recently updated_recently order_by order_direction =
        .ok []) ∧
    (pyContains r.stderr "No result found" = false →
      list_tickets env jql limit assigned_to_me unassigned status project
          created_recently updated_recently order_by order_direction =
        .error (.valueError ("Failed to list tickets: " ++ r.stderr))) := by
  constructor <;> intro hc <;>
    simp [list_tickets, execute_jira_command, h, hr, hexit, hc]

/-- An environment whose listing command always fails with the
absence-of-results stderr text. -/
def envNoResult : ExecEnv :=
  { binaryExists := true
    jiraPath := "jira"
    respond := fun _ _ =>
      { stdout := "", stderr := "Error: No result found.", exit_code := 1 }
    parseJson := fun _ => .error "Expecting value: line 1 column 1 (char 0)" }

/-- An environment whose listing command always fails with an unrelated
stderr text. -/
def envOtherFailure : ExecEnv :=
  { binaryExists := true
    jiraPath := "jira"
    respond := fun _ _ =>
      { stdout := "", stderr := "401 unauthorized", exit_code := 1 }
    parseJson := fun _ => .error "Expecting value: line 1 column 1 (char 0)" }

/-- Witness for C8 at concrete environments: the "No result found" failure
yields an empty list, another failure raises with the stderr text. -/
theorem C8_list_tickets_no_result_witness :
    list_tickets envNoResult none 20 false false none none false false none
        none = .ok [] ∧
    list_tickets envOtherFailure none 20 false false none none false false
        none none =
      .error (.valueError ("Failed to list tickets: " ++
        "401 unauthorized")) :=
  ⟨(C8_list_tickets_no_result envNoResult rfl none none none none none
      false false false false 20
      { stdout := "", stderr := "Error: No result found.", exit_code := 1 }
      rfl (by decide)).1 (by decide),
   (C8_list_tickets_no_result envOtherFailure rfl none none none none none
      false false false false 20
      { stdout := "", stderr := "401 unauthorized", exit_code := 1 }
      rfl (by decide)).2 (by decide)⟩

/-- C9: moveTicket normalizes the requested target status BEFORE issuing
the transition — the second executor invocation's argument list is
["issue", "move", key, normalize_status status] — and its result carries
as previous_status the status parsed from the preliminary lookup's stdout
and as new_status the normalized target. -/
theorem C9_move_ticket_normalizes (env : ExecEnv)
    (h : env.binaryExists = true) (ticket_key status : String)
    (h1 : (env.respond (move_ticket_view_args ticket_key) none).exit_code =
      0)
    (h2 : (env.respond ["issue", "move", ticket_key,
      normalize_status status] none).exit_code = 0) :
    move_ticket env ticket_key status =
      .ok
        { success := true,
          ticket_key := ticket_key,
          previous_status :=
            parseCurrentStatus
              (env.respond (move_ticket_view_args ticket_key) none).stdout,
          new_status := normalize_status status,
          message := "Successfully moved " ++ ticket_key ++ " from " ++
            parseCurrentStatus
              (env.respond (move_ticket_view_args ticket_key)
                none).stdout ++
            " to " ++ normalize_status status } := by
  simp [move_ticket, execute_jira_command, h, h1, h2]

/-- An environment for a successful two-step transition: the status lookup
prints "TEST-1\tOpen", the transition succeeds. -/
def envMove : ExecEnv :=
  { binaryExists := true
    jiraPath := "jira"
    respond := fun args _ =>
      if args = move_ticket_view_args "TEST-1" then
        { stdout := "TEST-1\tOpen", stderr := "", exit_code := 0 }
      else { stdout := "", stderr := "", exit_code := 0 }
    parseJson := fun _ => .error "Expecting value: line 1 column 1 (char 0)" }

/-- Witness for C9 at a concrete environment: requesting "in progress"
issues the transition with "In Progress" and reports previous status
"Open" from the lookup. -/
theorem C9_move_ticket_normalizes_witness :
    move_ticket envMove "TEST-1" "in progress" =
      .ok
        { success := true,
          ticket_key := "TEST-1",
          previous_status := "Open",
          new_status := "In Progress",
          message :=
            "Successfully moved TEST-1 from Open to In Progress" } := by
  have h := C9_move_ticket_normalizes envMove rfl "TEST-1" "in progress"
    (by decide) (by decide)
  exact h.trans rfl

/-- C10: the row parser splits each line on tab and discards empty or
whitespace-only fields before positional indexing, so (a) a line with
fewer than 5 non-empty fields yields no ticket record, (b) a line with
exactly 5 non-empty fields yields a ticket with no assignee, (c) the
parse is entirely determined positionally by the filtered column list (a
blank interior field shifts all later values into earlier positions, as
the concrete blank-summary line shows), and (d) a line with fewer than 3
non-empty fields contributes neither a record nor an error to the sprint
listing. -/
theorem C10_row_parsing (line : String) (k s st p t : String)
    (rest others : List String) :
    ((pyColumns line).length < 5 → parseTicketLine line = none) ∧
    (pyColumns line = [k, s, st, p, t] →
      parseTicketLine line =
        some { key := k, summary := s, status := st, priority := p,
               type := t, assignee := none, reporter := none,
               created := none, updated := none, description := none }) ∧
    (pyColumns line = k :: s :: st :: p :: t :: rest →
      parseTicketLine line =
        some { key := k, summary := s, status := st, priority := p,
               type := t, assignee := rest.head?, reporter := none,
               created := none, updated := none, description := none }) ∧
    ((pyColumns line).length < 3 →
      parseSprintLines (line :: others) = parseSprintLines others) ∧
    (pyColumns "TEST-1\t\tOpen\tHigh\tBug\tJohn Doe" =
      ["TEST-1", "Open", "High", "Bug", "John Doe"]) ∧
    (parseTicketLine "TEST-1\t\tOpen\tHigh\tBug\tJohn Doe" =
      some { key := "TEST-1", summary := "Open", status := "High",
             priority := "Bug", type := "John Doe", assignee := none,
             reporter := none, created := none, updated := none,
             description := none }) := by
  refine ⟨?_, ?_, ?_, ?_, by decide, by decide⟩
  · intro hlen
    rcases hc : pyColumns line with _ | ⟨a, _ | ⟨b, _ | ⟨c, _ | ⟨d,
        _ | ⟨e, rest'⟩⟩⟩⟩⟩ <;>
      simp [parseTicketLine, hc] <;> simp [hc] at hlen <;> omega
  · intro hc
    simp [parseTicketLine, hc]
  · intro hc
    simp [parseTicketLine, hc]
  · intro hlen
    rcases hc : pyColumns line with _ | ⟨a, _ | ⟨b, _ | ⟨c, rest'⟩⟩⟩ <;>
      simp [parseSprintLines, hc] <;> simp [hc] at hlen <;> omega

/-- Witness for C10 at concrete lines: a 2-field line yields no ticket, a
5-field line yields a ticket without assignee, a short line is skipped by
the sprint parser with no error. -/
theorem C10_row_parsing_witness :
    parseTicketLine "TEST-9\tOnly two" = none ∧
    parseTicketLine "TEST-2\tTest ticket 2\tDone\tMedium\tStory\t" =
      some { key := "TEST-2", summary := "Test ticket 2", status := "Done",
             priority := "Medium", type := "Story", assignee := none,
             reporter := none, created := none, updated := none,
             description := none } ∧
    parseSprintLines ["short\tline"] = .ok [] :=
  ⟨(C10_row_parsing "TEST-9\tOnly two" "" "" "" "" "" [] []).1 (by decide),
   (C10_row_parsing "TEST-2\tTest ticket 2\tDone\tMedium\tStory\t"
      "TEST-2" "Test ticket 2" "Done" "Medium" "Story" [] []).2.1
      (by decide),
   (C10_row_parsing "short\tline" "" "" "" "" "" [] []).2.2.2.1 (by decide)⟩

end JiraMcp
